import Mathlib

/- Verification development for the S3-vector Bedrock knowledge-base tool
   (source files knowledge_base_s3.py and create_knowledge_base_s3vectors.py).

   The cloud control plane is modelled as an explicit state (CloudState) and
   every AWS call as a state transition that also appends the call to a trace
   of Action values.  Python exception handling is modelled with an Except
   monad in which a try/except block dispatches the raised exception to the
   textually first handler whose class matches it, exactly as CPython does.
   Machine effects that the claims do not observe (printing, real-time
   sleeping) are modelled as pure trace entries. -/

namespace KBS3

/-- Exception values raised by the modelled cloud calls and by the Python
glue code.  conflictException and entityAlreadyExists are botocore service
errors, which are subclasses of ClientError, which is a subclass of
Exception; valueError and indexError are Python builtins. -/
inductive Exc where
  | conflictException
  | entityAlreadyExists
  | clientError
  | valueError (msg : String)
  | indexError
  deriving DecidableEq

/-- Class test for an except-Exception handler: matches every exception. -/
def matchesAny (_ : Exc) : Bool := true

/-- Class test for an except-ConflictException handler. -/
def matchesConflict (e : Exc) : Bool := e == Exc.conflictException

/-- Class test for an except-EntityAlreadyExistsException handler. -/
def matchesEntityExists (e : Exc) : Bool := e == Exc.entityAlreadyExists

/-- Class test for an except-ClientError handler.  Service-specific botocore
exceptions are subclasses of ClientError, so they match too. -/
def matchesClientError (e : Exc) : Bool :=
  e == Exc.clientError || e == Exc.conflictException || e == Exc.entityAlreadyExists

/-- A try/except over a pure Except value with a single catch-all handler. -/
def tryCatchE {α : Type} (body : Except Exc α) (handler : Exc → Except Exc α) :
    Except Exc α :=
  match body with
  | .ok a => .ok a
  | .error e => handler e

/- ------------------------------------------------------------------ -/
/- Per-document ingestion (create_knowledge_base_s3vectors.py)         -/
/- ------------------------------------------------------------------ -/

/-- Outcome of one get_knowledge_base_documents poll inside
ingest_single_document: the call can raise, return an empty
documentDetails list, or return a status string. -/
inductive PollResult where
  | pollError
  | noDetails
  | gotStatus (s : String)
  deriving DecidableEq

/-- The document descriptor dict built at the top of ingest_single_document.
The nested dict structure is flattened into one record; the field values are
exactly the ones the source assigns.  Note the dict has no metadata entry. -/
structure DocDescriptor where
  customDocumentIdentifier_id : String
  s3Location_uri : String
  sourceType : String
  dataSourceType : String
  deriving DecidableEq

/-- The cloud behaviour observed by one ingest_single_document call:
the response of the ingest_knowledge_base_documents submission (the list of
documentDetails statuses, or a raised exception) and the outcome of the
status poll performed after each elapsed amount of waiting time. -/
structure IngestEnv where
  submit : DocDescriptor → Except Exc (List String)
  poll : Nat → PollResult

/-- Classification metadata: a map from key to list of tag values. -/
abbrev Metadata := List (String × List String)

/-- Builds the descriptor submitted by ingest_single_document; only doc_id
and s3_uri flow into it. -/
def buildDoc (doc_id s3_uri : String) : DocDescriptor :=
  { customDocumentIdentifier_id := doc_id
    s3Location_uri := s3_uri
    sourceType := "S3_LOCATION"
    dataSourceType := "CUSTOM" }

/-- Python str.lower, modelled characterwise over the code points (the
filenames and resource names involved are ASCII). -/
def lowerStr (s : String) : String :=
  String.mk (s.data.map Char.toLower)

/-- Python string slicing s up to n characters. -/
def takeStr (s : String) (n : Nat) : String :=
  String.mk (s.data.take n)

/-- Python str.endswith. -/
def endswith (s post : String) : Bool :=
  post.data.isSuffixOf s.data

/-- Characters matched by the regex class of whitespace-or-hyphen used in
the re.sub call that cleans filenames (ASCII range). -/
def isSpaceOrDash (c : Char) : Bool :=
  c == ' ' || c == '\t' || c == '\n' || c == '\x0d' ||
    c == '\x0b' || c == '\x0c' || c == '-'

/-- Replaces every maximal run of whitespace-or-hyphen characters by a
single hyphen, as re.sub with pattern whitespace-or-hyphen-plus does.  The
Boolean argument records whether the previous character belonged to a run
that has already emitted its hyphen. -/
def collapseRunsAux : Bool → List Char → List Char
  | _, [] => []
  | inRun, c :: rest =>
    if isSpaceOrDash c then
      if inRun then collapseRunsAux true rest
      else '-' :: collapseRunsAux true rest
    else c :: collapseRunsAux false rest

/-- re.sub of the whitespace-or-hyphen-run pattern with a single hyphen. -/
def collapseRuns (cs : List Char) : List Char :=
  collapseRunsAux false cs

/-- clean_filename computation from ingest_knowledge_base_documents. -/
def cleanFilename (s : String) : String :=
  String.mk (collapseRuns s.toList)

/-- Base part of os.path.splitext: cut at the last dot, unless every
character before that dot is itself a dot (then there is no extension). -/
def splitextBase (s : String) : String :=
  let cs := s.toList
  let revAfter := cs.reverse.takeWhile (fun c => !(c == '.'))
  if revAfter.length == cs.length then
    s
  else
    let i := cs.length - revAfter.length - 1
    if (cs.take i).all (fun c => c == '.') then s
    else String.mk (cs.take i)

/-- doc_id computation in ingest_knowledge_base_documents: clean the
filename, strip the extension, lowercase. -/
def docIdOf (kb_file : String) : String :=
  lowerStr (splitextBase (cleanFilename kb_file))

/-- The hardcoded metadata_map of ingest_knowledge_base_documents. -/
def metadata_map : List (String × Metadata) :=
  [("cat-food-wikipedia.pdf", [("animal", ["cat"]), ("topic", ["food"])]),
   ("cat-play-and-toys-wikipedia.pdf",
     [("animal", ["cat"]), ("topic", ["play", "toys"])]),
   ("dog-food-wikipedia.pdf", [("animal", ["dog"]), ("topic", ["food"])]),
   ("dog-grooming-wikipedia.pdf",
     [("animal", ["dog"]), ("topic", ["grooming"])])]

/-- metadata_map.get(kb_file, empty-dict). -/
def lookupMeta (kb_file : String) : Metadata :=
  (List.lookup kb_file metadata_map).getD []

/-- The status-monitoring while loop of ingest_single_document: while
waited is below max_wait (60), sleep 5, add 5 to waited, then poll.  A poll
that raises is caught by the inner except and the loop continues; an empty
documentDetails list also just continues; INDEXED returns True, FAILED
returns False, any other status continues; falling out of the loop
(timeout) returns False. -/
def docPollLoop (poll : Nat → PollResult) (waited : Nat) : Except Exc Bool :=
  if h : waited < 60 then
    match poll (waited + 5) with
    | .pollError => docPollLoop poll (waited + 5)
    | .noDetails => docPollLoop poll (waited + 5)
    | .gotStatus s =>
      if s = "INDEXED" then .ok true
      else if s = "FAILED" then .ok false
      else docPollLoop poll (waited + 5)
  else .ok false
termination_by 60 - waited
decreasing_by all_goals omega

/-- Verdict of the twelve polls alone, written from the spec for
comparison: the first terminal status (INDEXED or FAILED) observed within
the window decides; none gives no verdict. -/
def pollVerdict (poll : Nat → PollResult) (waited : Nat) : Option Bool :=
  if h : waited < 60 then
    match poll (waited + 5) with
    | .gotStatus s =>
      if s = "INDEXED" then some true
      else if s = "FAILED" then some false
      else pollVerdict poll (waited + 5)
    | _ => pollVerdict poll (waited + 5)
  else none
termination_by 60 - waited
decreasing_by all_goals omega

/-- Body of the outer try in ingest_single_document: submit the descriptor,
read documentDetails[0] (raising IndexError when the list is empty), then
run the monitoring loop. -/
def ingestSingleBody (s3_uri doc_id : String) (env : IngestEnv) :
    Except Exc Bool :=
  match env.submit (buildDoc doc_id s3_uri) with
  | .error e => .error e
  | .ok details =>
    match details.head? with
    | none => .error .indexError
    | some _ => docPollLoop env.poll 0

/-- ingest_single_document: the whole body sits in a try whose except
Exception handler returns False, so every exception from submission or from
the loop machinery is converted to a False result. -/
def ingest_single_document (knowledge_base_id data_source_id s3_uri doc_id :
    String) (metadata : Metadata) (env : IngestEnv) : Except Exc Bool :=
  tryCatchE (ingestSingleBody s3_uri doc_id env) (fun _ => .ok false)

/-- Expected result of ingest_single_document, written from the spec for
comparison with the implementation: failure on a submission exception or an
empty detail list, otherwise the verdict of the polls with timeout treated
as failure. -/
def ingestResultSpec (s3_uri doc_id : String) (env : IngestEnv) : Bool :=
  match env.submit (buildDoc doc_id s3_uri) with
  | .error _ => false
  | .ok details =>
    if details.isEmpty then false
    else (pollVerdict env.poll 0).getD false

/-- The per-file loop of ingest_knowledge_base_documents, threading the
index of the call so the cloud behaviour of the i-th call is env i.
Returns success_count, fail_count and the list of files actually passed to
ingest_single_document; the loop breaks at the first failing file. -/
def ingestBatchAux (knowledge_base_id data_source_id s3_bucket : String)
    (env : Nat → IngestEnv) :
    List String → Nat → Except Exc (Nat × Nat × List String)
  | [], _ => .ok (0, 0, [])
  | kb_file :: rest, i =>
    let s3_uri := "s3://" ++ s3_bucket ++ "/" ++ kb_file
    let doc_id := docIdOf kb_file
    let metadata := lookupMeta kb_file
    match ingest_single_document knowledge_base_id data_source_id s3_uri
        doc_id metadata (env i) with
    | .error e => .error e
    | .ok true =>
      match ingestBatchAux knowledge_base_id data_source_id s3_bucket env
          rest (i + 1) with
      | .error e => .error e
      | .ok (s, f, att) => .ok (s + 1, f, kb_file :: att)
    | .ok false => .ok (0, 1, [kb_file])

/-- ingest_knowledge_base_documents: filter the folder listing down to pdf
files, then run the sequential fail-fast loop. -/
def ingest_knowledge_base_documents (knowledge_base_id data_source_id
    s3_bucket : String) (env : Nat → IngestEnv) (listing : List String) :
    Except Exc (Nat × Nat × List String) :=
  ingestBatchAux knowledge_base_id data_source_id s3_bucket env
    (listing.filter (fun f => endswith f ".pdf")) 0

/- ------------------------------------------------------------------ -/
/- Cloud state and call trace (knowledge_base_s3.py)                   -/
/- ------------------------------------------------------------------ -/

/-- One AWS API call (or sleep) issued by the tool, with the arguments the
claims need to observe. -/
inductive Action where
  | stsGetCallerIdentity
  | headBucket (bucket : String)
  | createBucket (bucket : String) (locationConstraint : Option String)
  | createVectorBucket (name : String)
  | getVectorBucket (name : String)
  | createIndex (bucket index : String) (dimension : Nat)
      (dataType distanceMetric : String)
  | getIndex (bucket index : String)
  | createPolicy (name : String)
  | getPolicy (arn : String)
  | createPolicyVersion (arn : String)
  | createRole (name : String)
  | getRole (name : String)
  | updateAssumeRolePolicy (name : String)
  | attachRolePolicy (role arn : String)
  | listAttachedRolePolicies (role : String)
  | sleep (seconds : Nat)
  | createKnowledgeBase (name : String)
  | listKnowledgeBases
  | getKnowledgeBase (kbId : String)
  | createDataSource (kbId name : String)
  | listDataSources (kbId : String)
  | getDataSource (dsId kbId : String)
  | deleteDataSource (dsId kbId : String)
  | deleteKnowledgeBase (kbId : String)
  | listObjects (bucket : String)
  | deleteObject (bucket key : String)
  | deleteBucket (bucket : String)
  | detachRolePolicy (role arn : String)
  | deleteRole (name : String)
  | deletePolicy (arn : String)
  | startIngestionJob
  | getIngestionJob
  deriving DecidableEq

/-- The account-side cloud state the tool mutates: resource namespaces keyed
by the human-chosen names (data sources keyed by owning knowledge-base id,
objects and vector indexes by owning bucket, IAM policies by ARN). -/
structure CloudState where
  dataBuckets : List String
  objects : List (String × String)
  vectorBuckets : List String
  vectorIndexes : List (String × String)
  policies : List String
  roles : List String
  attachments : List (String × String)
  knowledgeBases : List String
  dataSources : List (String × String)
  deriving DecidableEq

/-- The state with no resources provisioned yet. -/
def emptyState : CloudState :=
  { dataBuckets := [], objects := [], vectorBuckets := [], vectorIndexes := [],
    policies := [], roles := [], attachments := [], knowledgeBases := [],
    dataSources := [] }

/-- A stateful computation: from a cloud state to a result (or raised
exception), the updated state, and the trace of calls issued. -/
def M (α : Type) : Type :=
  CloudState → Except Exc α × CloudState × List Action

/-- Return without touching the cloud. -/
def pureM {α : Type} (a : α) : M α := fun s => (.ok a, s, [])

/-- Sequencing: if the first computation raises, the second never runs;
traces concatenate. -/
def bindM {α β : Type} (x : M α) (f : α → M β) : M β := fun s =>
  match x s with
  | (.ok a, s1, t1) =>
    match f a s1 with
    | (r, s2, t2) => (r, s2, t1 ++ t2)
  | (.error e, s1, t1) => (.error e, s1, t1)

/-- Raise an exception. -/
def throwM {α : Type} (e : Exc) : M α := fun s => (.error e, s, [])

/-- A try block with an ordered list of except clauses.  As in CPython, a
raised exception is dispatched to the first handler whose class test
matches it; state changes and calls made before the raise are kept. -/
def tryCatchM {α : Type} (body : M α)
    (handlers : List ((Exc → Bool) × (Exc → M α))) : M α := fun s =>
  match body s with
  | (.ok a, s1, t1) => (.ok a, s1, t1)
  | (.error e, s1, t1) =>
    match handlers.find? (fun h => h.1 e) with
    | some h =>
      match h.2 e s1 with
      | (r, s2, t2) => (r, s2, t1 ++ t2)
    | none => (.error e, s1, t1)

/-- The retrying decorator with stop_max_attempt_number = attempts: rerun
the body on any exception, up to the given total number of attempts, then
let the last exception propagate.  The randomized waits between attempts
are not observed by any claim and are elided from the trace. -/
def retryN {α : Type} : Nat → M α → M α
  | 0, body => body
  | 1, body => body
  | n + 2, body => fun s =>
    match body s with
    | (.ok a, s1, t1) => (.ok a, s1, t1)
    | (.error _, s1, t1) =>
      match retryN (n + 1) body s1 with
      | (r, s2, t2) => (r, s2, t1 ++ t2)

/-- A Python for loop running a stateful call per element. -/
def forEachM {α : Type} (f : α → M Unit) : List α → M Unit
  | [] => pureM ()
  | a :: rest => bindM (f a) (fun _ => forEachM f rest)

/-- interactive_sleep: seconds iterations of time.sleep(1). -/
def interactive_sleep (seconds : Nat) : M Unit := fun s =>
  (.ok (), s, List.replicate seconds (Action.sleep 1))

/-- Did the computation finish without an exception. -/
def isOkE {α : Type} : Except Exc α → Bool
  | .ok _ => true
  | .error _ => false

/- Provider-assigned identifiers.  The provider derives ARNs
deterministically from account and chosen name; opaque ids are modelled as
deterministic functions of the chosen name as well, which is sound for the
claims because each run that creates a resource with a name yields the
identifier of that name. -/

/-- ARN of a vector bucket. -/
def vectorBucketArnOf (name : String) : String :=
  "arn:aws:s3vectors:::bucket/" ++ name

/-- ARN of a vector index. -/
def vectorIndexArnOf (bucket index : String) : String :=
  vectorBucketArnOf bucket ++ "/index/" ++ index

/-- ARN of an IAM policy. -/
def policyArnOf (account name : String) : String :=
  "arn:aws:iam::" ++ account ++ ":policy/" ++ name

/-- ARN of an IAM role. -/
def roleArnOf (account name : String) : String :=
  "arn:aws:iam::" ++ account ++ ":role/" ++ name

/-- Provider-assigned knowledge-base id. -/
def kbIdOf (name : String) : String := "KBID-" ++ name

/-- Provider-assigned data-source id. -/
def dsIdOf (name : String) : String := "DSID-" ++ name

/- Individual AWS calls, each modelled with the service's documented
create/get/delete semantics over CloudState. -/

/-- sts get_caller_identity: a network call to STS returning the account. -/
def stsGetCallerIdentityCall (account : String) : M String := fun s =>
  (.ok account, s, [Action.stsGetCallerIdentity])

/-- s3 head_bucket: ClientError when the bucket does not exist. -/
def headBucketCall (bucket : String) : M Unit := fun s =>
  if bucket ∈ s.dataBuckets then (.ok (), s, [Action.headBucket bucket])
  else (.error .clientError, s, [Action.headBucket bucket])

/-- s3 create_bucket (with or without a LocationConstraint). -/
def createBucketCall (bucket : String) (loc : Option String) : M Unit :=
  fun s =>
  if bucket ∈ s.dataBuckets then
    (.error .clientError, s, [Action.createBucket bucket loc])
  else
    (.ok (), { s with dataBuckets := bucket :: s.dataBuckets },
      [Action.createBucket bucket loc])

/-- s3vectors create_vector_bucket: ConflictException when it exists. -/
def createVectorBucketCall (name : String) : M String := fun s =>
  if name ∈ s.vectorBuckets then
    (.error .conflictException, s, [Action.createVectorBucket name])
  else
    (.ok (vectorBucketArnOf name),
      { s with vectorBuckets := name :: s.vectorBuckets },
      [Action.createVectorBucket name])

/-- s3vectors get_vector_bucket. -/
def getVectorBucketCall (name : String) : M String := fun s =>
  if name ∈ s.vectorBuckets then
    (.ok (vectorBucketArnOf name), s, [Action.getVectorBucket name])
  else (.error .clientError, s, [Action.getVectorBucket name])

/-- s3vectors create_index: ConflictException when it exists. -/
def createIndexCall (bucket index : String) (dimension : Nat)
    (dataType distanceMetric : String) : M String := fun s =>
  if (bucket, index) ∈ s.vectorIndexes then
    (.error .conflictException, s,
      [Action.createIndex bucket index dimension dataType distanceMetric])
  else
    (.ok (vectorIndexArnOf bucket index),
      { s with vectorIndexes := (bucket, index) :: s.vectorIndexes },
      [Action.createIndex bucket index dimension dataType distanceMetric])

/-- s3vectors get_index. -/
def getIndexCall (bucket index : String) : M String := fun s =>
  if (bucket, index) ∈ s.vectorIndexes then
    (.ok (vectorIndexArnOf bucket index), s, [Action.getIndex bucket index])
  else (.error .clientError, s, [Action.getIndex bucket index])

/-- iam create_policy: EntityAlreadyExistsException when it exists. -/
def createPolicyCall (account name : String) : M String := fun s =>
  if policyArnOf account name ∈ s.policies then
    (.error .entityAlreadyExists, s, [Action.createPolicy name])
  else
    (.ok (policyArnOf account name),
      { s with policies := policyArnOf account name :: s.policies },
      [Action.createPolicy name])

/-- iam get_policy by ARN. -/
def getPolicyCall (arn : String) : M String := fun s =>
  if arn ∈ s.policies then (.ok arn, s, [Action.getPolicy arn])
  else (.error .clientError, s, [Action.getPolicy arn])

/-- iam create_policy_version (SetAsDefault). -/
def createPolicyVersionCall (arn : String) : M Unit := fun s =>
  if arn ∈ s.policies then (.ok (), s, [Action.createPolicyVersion arn])
  else (.error .clientError, s, [Action.createPolicyVersion arn])

/-- iam create_role: EntityAlreadyExistsException when it exists. -/
def createRoleCall (account name : String) : M String := fun s =>
  if name ∈ s.roles then
    (.error .entityAlreadyExists, s, [Action.createRole name])
  else
    (.ok (roleArnOf account name), { s with roles := name :: s.roles },
      [Action.createRole name])

/-- iam get_role by name. -/
def getRoleCall (account name : String) : M String := fun s =>
  if name ∈ s.roles then
    (.ok (roleArnOf account name), s, [Action.getRole name])
  else (.error .clientError, s, [Action.getRole name])

/-- iam update_assume_role_policy. -/
def updateAssumeRolePolicyCall (name : String) : M Unit := fun s =>
  if name ∈ s.roles then (.ok (), s, [Action.updateAssumeRolePolicy name])
  else (.error .clientError, s, [Action.updateAssumeRolePolicy name])

/-- iam attach_role_policy: idempotent, re-attachment is not an error. -/
def attachRolePolicyCall (role arn : String) : M Unit := fun s =>
  if (role, arn) ∈ s.attachments then
    (.ok (), s, [Action.attachRolePolicy role arn])
  else
    (.ok (), { s with attachments := (role, arn) :: s.attachments },
      [Action.attachRolePolicy role arn])

/-- iam list_attached_role_policies. -/
def listAttachedRolePoliciesCall (role : String) : M (List String) := fun s =>
  (.ok ((s.attachments.filter (fun p => p.1 == role)).map (fun p => p.2)),
    s, [Action.listAttachedRolePolicies role])

/-- bedrock-agent create_knowledge_base: ConflictException when a knowledge
base with that name exists. -/
def createKnowledgeBaseCall (name : String) : M String := fun s =>
  if name ∈ s.knowledgeBases then
    (.error .conflictException, s, [Action.createKnowledgeBase name])
  else
    (.ok (kbIdOf name),
      { s with knowledgeBases := name :: s.knowledgeBases },
      [Action.createKnowledgeBase name])

/-- bedrock-agent list_knowledge_bases: the names of all knowledge bases. -/
def listKnowledgeBasesCall : M (List String) := fun s =>
  (.ok s.knowledgeBases, s, [Action.listKnowledgeBases])

/-- bedrock-agent get_knowledge_base by id. -/
def getKnowledgeBaseCall (kbId : String) : M String := fun s =>
  if s.knowledgeBases.any (fun n => kbIdOf n == kbId) then
    (.ok kbId, s, [Action.getKnowledgeBase kbId])
  else (.error .clientError, s, [Action.getKnowledgeBase kbId])

/-- bedrock-agent create_data_source: ConflictException when it exists. -/
def createDataSourceCall (kbId name : String) : M String := fun s =>
  if (kbId, dsIdOf name) ∈ s.dataSources then
    (.error .conflictException, s, [Action.createDataSource kbId name])
  else
    (.ok (dsIdOf name),
      { s with dataSources := (kbId, dsIdOf name) :: s.dataSources },
      [Action.createDataSource kbId name])

/-- bedrock-agent list_data_sources for a knowledge base. -/
def listDataSourcesCall (kbId : String) : M (List String) := fun s =>
  (.ok ((s.dataSources.filter (fun p => p.1 == kbId)).map (fun p => p.2)),
    s, [Action.listDataSources kbId])

/-- bedrock-agent get_data_source. -/
def getDataSourceCall (dsId kbId : String) : M String := fun s =>
  if (kbId, dsId) ∈ s.dataSources then
    (.ok dsId, s, [Action.getDataSource dsId kbId])
  else (.error .clientError, s, [Action.getDataSource dsId kbId])

/-- bedrock-agent delete_data_source. -/
def deleteDataSourceCall (dsId kbId : String) : M Unit := fun s =>
  if (kbId, dsId) ∈ s.dataSources then
    (.ok (),
      { s with dataSources :=
          s.dataSources.filter (fun p => !(p.1 == kbId && p.2 == dsId)) },
      [Action.deleteDataSource dsId kbId])
  else (.error .clientError, s, [Action.deleteDataSource dsId kbId])

/-- bedrock-agent delete_knowledge_base. -/
def deleteKnowledgeBaseCall (kbId : String) : M Unit := fun s =>
  if s.knowledgeBases.any (fun n => kbIdOf n == kbId) then
    (.ok (),
      { s with knowledgeBases :=
          s.knowledgeBases.filter (fun n => !(kbIdOf n == kbId)) },
      [Action.deleteKnowledgeBase kbId])
  else (.error .clientError, s, [Action.deleteKnowledgeBase kbId])

/-- s3 list_objects: the keys of the bucket (an empty list models a
response without a Contents entry); ClientError when the bucket does not
exist. -/
def listObjectsCall (bucket : String) : M (List String) := fun s =>
  if bucket ∈ s.dataBuckets then
    (.ok ((s.objects.filter (fun p => p.1 == bucket)).map (fun p => p.2)),
      s, [Action.listObjects bucket])
  else (.error .clientError, s, [Action.listObjects bucket])

/-- s3 delete_object: succeeds whether or not the key exists. -/
def deleteObjectCall (bucket key : String) : M Unit := fun s =>
  (.ok (),
    { s with objects :=
        s.objects.filter (fun p => !(p.1 == bucket && p.2 == key)) },
    [Action.deleteObject bucket key])

/-- s3 delete_bucket: only an existing, empty bucket can be deleted. -/
def deleteBucketCall (bucket : String) : M Unit := fun s =>
  if bucket ∈ s.dataBuckets ∧ s.objects.all (fun p => !(p.1 == bucket)) then
    (.ok (), { s with dataBuckets := s.dataBuckets.filter (fun n => !(n == bucket)) },
      [Action.deleteBucket bucket])
  else (.error .clientError, s, [Action.deleteBucket bucket])

/-- iam detach_role_policy. -/
def detachRolePolicyCall (role arn : String) : M Unit := fun s =>
  if (role, arn) ∈ s.attachments then
    (.ok (),
      { s with attachments :=
          s.attachments.filter (fun p => !(p.1 == role && p.2 == arn)) },
      [Action.detachRolePolicy role arn])
  else (.error .clientError, s, [Action.detachRolePolicy role arn])

/-- iam delete_role.  The service also refuses to delete a role that still
has attached policies; no claim depends on that precondition, so it is
elided here. -/
def deleteRoleCall (name : String) : M Unit := fun s =>
  if name ∈ s.roles then
    (.ok (), { s with roles := s.roles.filter (fun n => !(n == name)) },
      [Action.deleteRole name])
  else (.error .clientError, s, [Action.deleteRole name])

/-- iam delete_policy by ARN. -/
def deletePolicyCall (arn : String) : M Unit := fun s =>
  if arn ∈ s.policies then
    (.ok (), { s with policies := s.policies.filter (fun p => !(p == arn)) },
      [Action.deletePolicy arn])
  else (.error .clientError, s, [Action.deletePolicy arn])

/- ------------------------------------------------------------------ -/
/- BedrockKnowledgeBase methods                                        -/
/- ------------------------------------------------------------------ -/

/-- The allow-list of embedding models at the top of knowledge_base_s3.py. -/
def valid_embedding_models : List String :=
  ["cohere.embed-multilingual-v3",
   "cohere.embed-english-v3",
   "amazon.titan-embed-text-v2:0"]

/-- Python str() rendering of valid_embedding_models, used in the
ValueError message. -/
def validEmbeddingModelsStr : String :=
  "['cohere.embed-multilingual-v3', 'cohere.embed-english-v3', 'amazon.titan-embed-text-v2:0']"

/-- self.kb_execution_role_name. -/
def kbExecutionRoleName (suffix : String) : String :=
  "AmazonBedrockExecutionRoleForKnowledgeBase_" ++ suffix

/-- self.fm_policy_name. -/
def fmPolicyName (suffix : String) : String :=
  "AmazonBedrockFoundationModelPolicyForKnowledgeBase_" ++ suffix

/-- self.s3_policy_name. -/
def s3PolicyName (suffix : String) : String :=
  "AmazonBedrockS3PolicyForKnowledgeBase_" ++ suffix

/-- create_s3_bucket: head_bucket inside a try; the except ClientError
clause creates the bucket, with a LocationConstraint outside us-east-1. -/
def create_s3_bucket (bucket_name region_name : String) : M Unit :=
  tryCatchM (headBucketCall bucket_name)
    [(matchesClientError, fun _ =>
      if region_name = "us-east-1" then createBucketCall bucket_name none
      else createBucketCall bucket_name (some region_name))]

/-- create_s3_vector_resources: create-or-get the vector bucket, then
create-or-get the index with the hardcoded dimension 1024, dataType
float32 and distanceMetric euclidean; returns names and ARNs. -/
def create_s3_vector_resources (kb_name suffix : String) :
    M (String × String × String × String) :=
  let vector_bucket_name := lowerStr (kb_name ++ "-vectors-" ++ suffix)
  let vector_index_name := lowerStr (kb_name ++ "-index")
  bindM (tryCatchM (createVectorBucketCall vector_bucket_name)
      [(matchesConflict, fun _ => getVectorBucketCall vector_bucket_name)])
    (fun vector_bucket_arn =>
      bindM (tryCatchM
          (createIndexCall vector_bucket_name vector_index_name 1024
            "float32" "euclidean")
          [(matchesConflict, fun _ =>
            getIndexCall vector_bucket_name vector_index_name)])
        (fun vector_index_arn =>
          pureM (vector_bucket_name, vector_index_name, vector_bucket_arn,
            vector_index_arn)))

/-- create_bedrock_kb_execution_role: create-or-get both policies (pushing
a new default version of the s3 policy when it already exists), create-or-
get the role (updating its trust policy when it already exists), attach the
foundation-model policy then the s3 policy, wait 60 seconds; returns the
role ARN. -/
def create_bedrock_kb_execution_role (account suffix : String) : M String :=
  bindM (tryCatchM (createPolicyCall account (fmPolicyName suffix))
      [(matchesEntityExists, fun _ =>
        getPolicyCall (policyArnOf account (fmPolicyName suffix)))])
    (fun fm_policy_arn =>
      bindM (tryCatchM (createPolicyCall account (s3PolicyName suffix))
          [(matchesEntityExists, fun _ =>
            bindM (getPolicyCall (policyArnOf account (s3PolicyName suffix)))
              (fun arn =>
                bindM (createPolicyVersionCall arn) (fun _ => pureM arn)))])
        (fun s3_policy_arn =>
          bindM (tryCatchM (createRoleCall account (kbExecutionRoleName suffix))
              [(matchesEntityExists, fun _ =>
                bindM (getRoleCall account (kbExecutionRoleName suffix))
                  (fun r =>
                    bindM (updateAssumeRolePolicyCall
                      (kbExecutionRoleName suffix)) (fun _ => pureM r)))])
            (fun role_arn =>
              bindM (attachRolePolicyCall (kbExecutionRoleName suffix)
                  fm_policy_arn)
                (fun _ =>
                  bindM (attachRolePolicyCall (kbExecutionRoleName suffix)
                      s3_policy_arn)
                    (fun _ =>
                      bindM (interactive_sleep 60)
                        (fun _ => pureM role_arn))))))

/-- The Python loop over knowledgeBaseSummaries that keeps overwriting
kb_id on every name match: the last matching entry wins. -/
def lastMatch (names : List String) (target : String) : Option String :=
  (names.filter (fun n => n == target)).getLast?

/-- The body of create_knowledge_base as written in the source.  The try
around create_knowledge_base has its except clauses in this textual order:
first except Exception (print diagnostics, re-fetch the role and its
attached policies, re-raise), then except ConflictException (list
knowledge bases, match by name, get by id).  Dispatch goes to the first
matching clause.  Afterwards create_data_source runs with a single except
ConflictException clause adopting the first listed data source. -/
def create_knowledge_base_body (kb_name account kb_execution_role_name :
    String) : M (String × String) :=
  bindM (tryCatchM (createKnowledgeBaseCall kb_name)
      [(matchesAny, fun e =>
        bindM (getRoleCall account kb_execution_role_name) (fun _ =>
          bindM (listAttachedRolePoliciesCall kb_execution_role_name)
            (fun _ => throwM e))),
       (matchesConflict, fun _ =>
        bindM listKnowledgeBasesCall (fun kb_names =>
          match lastMatch kb_names kb_name with
          | none => throwM .clientError
          | some name => getKnowledgeBaseCall (kbIdOf name)))])
    (fun kbId =>
      bindM (tryCatchM (createDataSourceCall kbId kb_name)
          [(matchesConflict, fun _ =>
            bindM (listDataSourcesCall kbId) (fun ds_ids =>
              match ds_ids.head? with
              | none => throwM .indexError
              | some ds_id => getDataSourceCall ds_id kbId))])
        (fun dsId => pureM (kbId, dsId)))

/-- create_knowledge_base with its retry decorator
(stop_max_attempt_number=7). -/
def create_knowledge_base (kb_name account kb_execution_role_name : String) :
    M (String × String) :=
  retryN 7 (create_knowledge_base_body kb_name account kb_execution_role_name)

/-- The resource identifiers held by a constructed BedrockKnowledgeBase. -/
structure InitIds where
  bucket_name : String
  vector_bucket_name : String
  vector_index_name : String
  vector_bucket_arn : String
  vector_index_arn : String
  bedrock_kb_execution_role_arn : String
  knowledge_base_id : String
  data_source_id : String
  deriving DecidableEq

/-- BedrockKnowledgeBase.__init__: resolve the account through STS (the
suffix is its first four characters), pick the data-bucket name, validate
the embedding model against the allow-list (raising ValueError on an
unknown model), then run steps 1 to 4: data bucket, vector bucket and
index, execution role and policies, knowledge base and data source. -/
def bedrockKnowledgeBaseInit (kb_name : String)
    (kb_description : Option String) (data_bucket_name : Option String)
    (embedding_model : String) (account region_name : String) : M InitIds :=
  bindM (stsGetCallerIdentityCall account) (fun account_number =>
    let suffix := takeStr account_number 4
    let bucket_name :=
      match data_bucket_name with
      | some b => b
      | none => kb_name ++ "-" ++ suffix
    if embedding_model ∉ valid_embedding_models then
      throwM (.valueError
        ("Invalid embedding model. Your embedding model should be one of "
          ++ validEmbeddingModelsStr))
    else
      bindM (create_s3_bucket bucket_name region_name) (fun _ =>
        bindM (create_s3_vector_resources kb_name suffix) (fun v =>
          bindM (create_bedrock_kb_execution_role account_number suffix)
            (fun role_arn =>
              bindM (create_knowledge_base kb_name account_number
                  (kbExecutionRoleName suffix))
                (fun kd =>
                  pureM { bucket_name := bucket_name
                          vector_bucket_name := v.1
                          vector_index_name := v.2.1
                          vector_bucket_arn := v.2.2.1
                          vector_index_arn := v.2.2.2
                          bedrock_kb_execution_role_arn := role_arn
                          knowledge_base_id := kd.1
                          data_source_id := kd.2 })))))

/-- delete_iam_roles_and_policies: detach the s3 policy, detach the
foundation-model policy, delete the role, delete the s3 policy, delete the
foundation-model policy, return 0. -/
def delete_iam_roles_and_policies (account suffix : String) : M Nat :=
  let fm_policy_arn := policyArnOf account (fmPolicyName suffix)
  let s3_policy_arn := policyArnOf account (s3PolicyName suffix)
  bindM (detachRolePolicyCall (kbExecutionRoleName suffix) s3_policy_arn)
    (fun _ =>
      bindM (detachRolePolicyCall (kbExecutionRoleName suffix) fm_policy_arn)
        (fun _ =>
          bindM (deleteRoleCall (kbExecutionRoleName suffix)) (fun _ =>
            bindM (deletePolicyCall s3_policy_arn) (fun _ =>
              bindM (deletePolicyCall fm_policy_arn) (fun _ => pureM 0)))))

/-- delete_s3: list the bucket objects, delete each listed object, then
delete the bucket. -/
def delete_s3 (bucket_name : String) : M Unit :=
  bindM (listObjectsCall bucket_name) (fun keys =>
    bindM (forEachM (fun k => deleteObjectCall bucket_name k) keys)
      (fun _ => deleteBucketCall bucket_name))

/-- delete_kb: delete the data source, delete the knowledge base, then run
delete_s3 when delete_s3_bucket is set and delete_iam_roles_and_policies
when its flag is set, with no exception handling around any step. -/
def delete_kb (data_source_id knowledge_base_id bucket_name account suffix :
    String) (delete_s3_bucket delete_iam_roles_and_policies_flag : Bool) :
    M Unit :=
  bindM (deleteDataSourceCall data_source_id knowledge_base_id) (fun _ =>
    bindM (deleteKnowledgeBaseCall knowledge_base_id) (fun _ =>
      bindM (if delete_s3_bucket then delete_s3 bucket_name else pureM ())
        (fun _ =>
          if delete_iam_roles_and_policies_flag then
            bindM (delete_iam_roles_and_policies account suffix)
              (fun _ => pureM ())
          else pureM ())))

/-- The polling loop of start_ingestion_job, indexed by observation fuel:
while the job status differs from COMPLETE, immediately fetch it again
(statusOf n is the status returned by the n-th get_ingestion_job call).  A
none result means the loop was still running after fuel iterations; the
loop itself has no bound and no sleep between polls. -/
def ingestionPollLoop (statusOf : Nat → String) :
    Nat → Nat → String → Option String × List Action
  | 0, _, _ => (none, [])
  | fuel + 1, n, status =>
    if status = "COMPLETE" then (some status, [])
    else
      match ingestionPollLoop statusOf fuel (n + 1) (statusOf n) with
      | (r, t) => (r, Action.getIngestionJob :: t)

/-- start_ingestion_job: start the job (its initial status is
initial_status), busy-poll until COMPLETE, then interactive_sleep(40). -/
def start_ingestion_job (statusOf : Nat → String) (initial_status : String)
    (fuel : Nat) : Option String × List Action :=
  match ingestionPollLoop statusOf fuel 0 initial_status with
  | (none, t) => (none, Action.startIngestionJob :: t)
  | (some st, t) =>
    (some st,
      Action.startIngestionJob :: (t ++ List.replicate 40 (Action.sleep 1)))

/-- Is an action one of the IAM-teardown calls of
delete_iam_roles_and_policies. -/
def isIamTeardownAction : Action → Bool
  | .detachRolePolicy _ _ => true
  | .deleteRole _ => true
  | .deletePolicy _ => true
  | _ => false

/-- First occurrence of a strictly before first occurrence of b in t. -/
def precedesIn (t : List Action) (a b : Action) : Bool :=
  match t.findIdx? (fun x => x == a), t.findIdx? (fun x => x == b) with
  | some i, some j => i < j
  | _, _ => false

/-- The descriptor ingest_single_document submits for the given arguments.
It is built from doc_id and s3_uri alone: the source constructs the dict
before the try block and never references the metadata parameter. -/
def submittedDescriptor (s3_uri doc_id : String) (metadata : Metadata) :
    DocDescriptor :=
  buildDoc doc_id s3_uri

/-- A concrete account state as left by one completed provisioning run of
a knowledge base named pets-kb under account 123456789012 (suffix 1234),
used to evaluate the teardown path on explicit inputs. -/
def teardownReadyState : CloudState :=
  { dataBuckets := ["pets-kb-1234"]
    objects := [("pets-kb-1234", "cat-food-wikipedia.pdf")]
    vectorBuckets := ["pets-kb-vectors-1234"]
    vectorIndexes := [("pets-kb-vectors-1234", "pets-kb-index")]
    policies := [policyArnOf "123456789012" (fmPolicyName "1234"),
                 policyArnOf "123456789012" (s3PolicyName "1234")]
    roles := [kbExecutionRoleName "1234"]
    attachments :=
      [(kbExecutionRoleName "1234",
        policyArnOf "123456789012" (fmPolicyName "1234")),
       (kbExecutionRoleName "1234",
        policyArnOf "123456789012" (s3PolicyName "1234"))]
    knowledgeBases := ["pets-kb"]
    dataSources := [(kbIdOf "pets-kb", dsIdOf "pets-kb")] }

/- ------------------------------------------------------------------ -/
/- Supporting lemmas                                                   -/
/- ------------------------------------------------------------------ -/

/-- The monitoring loop of ingest_single_document computes exactly the
verdict of the polls, with no verdict (timeout) collapsing to failure, and
never raises. -/
theorem docPollLoop_eq_pollVerdict (poll : Nat → PollResult) :
    ∀ n waited, 60 - waited ≤ n →
      docPollLoop poll waited = .ok ((pollVerdict poll waited).getD false) := by
  intro n
  induction n with
  | zero =>
    intro waited hw
    unfold docPollLoop pollVerdict
    have h60 : ¬ waited < 60 := by omega
    simp [h60]
  | succ n ih =>
    intro waited hw
    unfold docPollLoop pollVerdict
    by_cases h60 : waited < 60
    · simp only [dif_pos h60]
      cases hp : poll (waited + 5) with
      | pollError => simpa using ih (waited + 5) (by omega)
      | noDetails => simpa using ih (waited + 5) (by omega)
      | gotStatus s =>
        by_cases hi : s = "INDEXED"
        · simp [hi]
        · by_cases hf : s = "FAILED"
          · simp [hi, hf]
          · simpa [hi, hf] using ih (waited + 5) (by omega)
    · simp [h60]

/-- The fail-fast behaviour of the per-file loop, for any start offset:
if the calls for positions below k succeed, the call at position k (below
the batch length) fails, then the loop returns k successes, one failure,
and has attempted exactly the first k+1 files. -/
theorem ingestBatchAux_failfast (kb ds b : String) (env : Nat → IngestEnv) :
    ∀ (files : List String) (i0 k : Nat), k < files.length →
    (∀ j f, j < k → files.get? j = some f →
      ingest_single_document kb ds ("s3://" ++ b ++ "/" ++ f) (docIdOf f)
        (lookupMeta f) (env (i0 + j)) = .ok true) →
    (∀ f, files.get? k = some f →
      ingest_single_document kb ds ("s3://" ++ b ++ "/" ++ f) (docIdOf f)
        (lookupMeta f) (env (i0 + k)) = .ok false) →
    ingestBatchAux kb ds b env files i0 = .ok (k, 1, files.take (k + 1)) := by
  intro files
  induction files with
  | nil => intro i0 k hk _ _; simp at hk
  | cons kb_file rest ih =>
    intro i0 k hk hok hfail
    cases k with
    | zero =>
      have h0 := hfail kb_file rfl
      unfold ingestBatchAux
      simp only [Nat.add_zero] at h0
      simp [h0]
    | succ k =>
      have hhead := hok 0 kb_file (by omega) rfl
      simp only [Nat.add_zero] at hhead
      have hrec := ih (i0 + 1) k (by simpa using Nat.lt_of_succ_lt_succ hk)
        (by
          intro j f hj hget
          have h := hok (j + 1) f (by omega) (by simpa using hget)
          rw [show i0 + 1 + j = i0 + (j + 1) from by omega]
          exact h)
        (by
          intro f hget
          have h := hfail f (by simpa using hget)
          rw [show i0 + 1 + k = i0 + (k + 1) from by omega]
          exact h)
      unfold ingestBatchAux
      simp [hhead, hrec, List.take_succ_cons]

/-- When every call in the batch succeeds, the loop reports one success per
file, no failure, and attempts every file. -/
theorem ingestBatchAux_all_ok (kb ds b : String) (env : Nat → IngestEnv) :
    ∀ (files : List String) (i0 : Nat),
    (∀ j f, files.get? j = some f →
      ingest_single_document kb ds ("s3://" ++ b ++ "/" ++ f) (docIdOf f)
        (lookupMeta f) (env (i0 + j)) = .ok true) →
    ingestBatchAux kb ds b env files i0 = .ok (files.length, 0, files) := by
  intro files
  induction files with
  | nil => intro i0 _; rfl
  | cons kb_file rest ih =>
    intro i0 hok
    have hhead := hok 0 kb_file rfl
    simp only [Nat.add_zero] at hhead
    have hrec := ih (i0 + 1)
      (by
        intro j f hget
        have h := hok (j + 1) f (by simpa using hget)
        rw [show i0 + 1 + j = i0 + (j + 1) from by omega]
        exact h)
    unfold ingestBatchAux
    simp [hhead, hrec]

/-- The busy-poll loop of start_ingestion_job never reports a result while
the status stream avoids COMPLETE. -/
theorem ingestionPollLoop_never_exits (statusOf : Nat → String)
    (h : ∀ n, statusOf n ≠ "COMPLETE") :
    ∀ fuel n0 cur, cur ≠ "COMPLETE" →
      (ingestionPollLoop statusOf fuel n0 cur).1 = none := by
  intro fuel
  induction fuel with
  | zero => intro n0 cur _; rfl
  | succ fuel ih =>
    intro n0 cur hc
    unfold ingestionPollLoop
    rcases hp : ingestionPollLoop statusOf fuel (n0 + 1) (statusOf n0)
      with ⟨r, t⟩
    have := ih (n0 + 1) (statusOf n0) (h n0)
    rw [hp] at this
    simp [hc, hp, this]

/-- The busy-poll loop exits only with the status COMPLETE. -/
theorem ingestionPollLoop_exit_status (statusOf : Nat → String) :
    ∀ fuel n0 cur st, (ingestionPollLoop statusOf fuel n0 cur).1 = some st →
      st = "COMPLETE" := by
  intro fuel
  induction fuel with
  | zero => intro n0 cur st hst; simp [ingestionPollLoop] at hst
  | succ fuel ih =>
    intro n0 cur st hst
    unfold ingestionPollLoop at hst
    by_cases hc : cur = "COMPLETE"
    · simp [hc] at hst
      exact hst.symm
    · rcases hp : ingestionPollLoop statusOf fuel (n0 + 1) (statusOf n0)
        with ⟨r, t⟩
      rw [if_neg hc, hp] at hst
      simp at hst
      exact ih (n0 + 1) (statusOf n0) st (by rw [hp]; exact hst)

/-- Every action the busy-poll loop issues is a get_ingestion_job call:
in particular there is no sleep between successive polls. -/
theorem ingestionPollLoop_no_sleep (statusOf : Nat → String) :
    ∀ fuel n0 cur a, a ∈ (ingestionPollLoop statusOf fuel n0 cur).2 →
      a = Action.getIngestionJob := by
  intro fuel
  induction fuel with
  | zero => intro n0 cur a ha; simp [ingestionPollLoop] at ha
  | succ fuel ih =>
    intro n0 cur a ha
    unfold ingestionPollLoop at ha
    by_cases hc : cur = "COMPLETE"
    · simp [hc] at ha
    · rcases hp : ingestionPollLoop statusOf fuel (n0 + 1) (statusOf n0)
        with ⟨r, t⟩
      rw [if_neg hc, hp] at ha
      simp at ha
      rcases ha with ha | ha
      · exact ha
      · exact ih (n0 + 1) (statusOf n0) a (by rw [hp]; exact ha)

/-- Sequencing through a successful first computation. -/
theorem bindM_ok {α β : Type} {x : M α} {f : α → M β} {s s1 s2 : CloudState}
    {a : α} {t1 t2 : List Action} {r : Except Exc β}
    (hx : x s = (.ok a, s1, t1)) (hf : f a s1 = (r, s2, t2)) :
    bindM x f s = (r, s2, t1 ++ t2) := by
  unfold bindM
  rw [hx]
  show (match f a s1 with | (r, s2, t2) => (r, s2, t1 ++ t2)) = _
  rw [hf]

/-- Sequencing through a failing first computation. -/
theorem bindM_err {α β : Type} {x : M α} {f : α → M β} {s s1 : CloudState}
    {e : Exc} {t1 : List Action} (hx : x s = (.error e, s1, t1)) :
    bindM x f s = (.error e, s1, t1) := by
  unfold bindM
  rw [hx]

/-- The two policy ARNs of a provisioning run are distinct (their name
parts have different lengths). -/
theorem fm_s3_policy_arn_ne (account suffix : String) :
    policyArnOf account (fmPolicyName suffix) ≠
      policyArnOf account (s3PolicyName suffix) := by
  intro h
  have h2 := congrArg String.length h
  simp only [policyArnOf, fmPolicyName, s3PolicyName,
    String.length_append] at h2
  have e1 :
      ("AmazonBedrockFoundationModelPolicyForKnowledgeBase_" : String).length
        = 51 := by decide
  have e2 : ("AmazonBedrockS3PolicyForKnowledgeBase_" : String).length = 38 :=
    by decide
  rw [e1, e2] at h2
  omega

/-- Running the object-deletion loop of delete_s3 over a key list covering
every object of the bucket deletes them all: it succeeds, issues exactly one
delete_object call per key, leaves no object of the bucket behind, and does
not touch buckets, IAM state or knowledge bases. -/
theorem forEachM_deleteObject (bucket : String) :
    ∀ (keys : List String) (s : CloudState),
      (∀ p ∈ s.objects, p.1 = bucket → p.2 ∈ keys) →
      ∃ s2, forEachM (fun k => deleteObjectCall bucket k) keys s =
          (.ok (), s2, keys.map (Action.deleteObject bucket)) ∧
        s2.objects.all (fun p => !(p.1 == bucket)) = true ∧
        s2.dataBuckets = s.dataBuckets ∧ s2.attachments = s.attachments ∧
        s2.roles = s.roles ∧ s2.policies = s.policies := by
  intro keys
  induction keys with
  | nil =>
    intro s hcov
    refine ⟨s, rfl, ?_, rfl, rfl, rfl, rfl⟩
    rw [List.all_eq_true]
    intro p hp
    by_cases hb : p.1 = bucket
    · exact absurd (hcov p hp hb) (List.not_mem_nil _)
    · simp [hb]
  | cons k ks ih =>
    intro s hcov
    have hstep : deleteObjectCall bucket k s =
        (.ok (),
          { s with objects :=
              s.objects.filter (fun p => !(p.1 == bucket && p.2 == k)) },
          [Action.deleteObject bucket k]) := rfl
    have hcov1 : ∀ p ∈ (s.objects.filter
        (fun p => !(p.1 == bucket && p.2 == k))), p.1 = bucket → p.2 ∈ ks := by
      intro p hp hb
      rw [List.mem_filter] at hp
      obtain ⟨hmem, hcond⟩ := hp
      rcases List.mem_cons.mp (hcov p hmem hb) with hk | hk
      · rw [hb, hk] at hcond
        simp at hcond
      · exact hk
    obtain ⟨s2, hrun, hall, hdb, hat, hro, hpo⟩ :=
      ih { s with objects :=
        s.objects.filter (fun p => !(p.1 == bucket && p.2 == k)) } hcov1
    refine ⟨s2, ?_, hall, hdb, hat, hro, hpo⟩
    show bindM (deleteObjectCall bucket k)
      (fun _ => forEachM (fun k => deleteObjectCall bucket k) ks) s = _
    rw [bindM_ok hstep hrun]
    simp

/-- delete_s3 on an existing bucket: lists the objects, deletes each of
them, then deletes the (now empty) bucket; IAM state is untouched. -/
theorem delete_s3_ok (bucket : String) (s : CloudState)
    (hb : bucket ∈ s.dataBuckets) :
    ∃ s3, delete_s3 bucket s =
        (.ok (), s3,
          Action.listObjects bucket ::
            (((s.objects.filter (fun p => p.1 == bucket)).map (fun p => p.2)).map
              (Action.deleteObject bucket) ++ [Action.deleteBucket bucket])) ∧
      s3.attachments = s.attachments ∧ s3.roles = s.roles ∧
      s3.policies = s.policies := by
  have hlist : listObjectsCall bucket s =
      (.ok ((s.objects.filter (fun p => p.1 == bucket)).map (fun p => p.2)),
        s, [Action.listObjects bucket]) := by
    unfold listObjectsCall
    rw [if_pos hb]
  have hcov : ∀ p ∈ s.objects, p.1 = bucket →
      p.2 ∈ (s.objects.filter (fun p => p.1 == bucket)).map (fun p => p.2) := by
    intro p hp hb2
    exact List.mem_map.mpr ⟨p, List.mem_filter.mpr ⟨hp, by simp [hb2]⟩, rfl⟩
  obtain ⟨s2, hrun, hall, hdb, hat, hro, hpo⟩ :=
    forEachM_deleteObject bucket
      ((s.objects.filter (fun p => p.1 == bucket)).map (fun p => p.2)) s hcov
  have hdel : deleteBucketCall bucket s2 =
      (.ok (),
        { s2 with dataBuckets := s2.dataBuckets.filter (fun n => !(n == bucket)) },
        [Action.deleteBucket bucket]) := by
    unfold deleteBucketCall
    rw [if_pos ⟨by rw [hdb]; exact hb, hall⟩]
  refine ⟨{ s2 with dataBuckets := s2.dataBuckets.filter (fun n => !(n == bucket)) },
    ?_, by simpa using hat, by simpa using hro, by simpa using hpo⟩
  show bindM (listObjectsCall bucket) _ s = _
  rw [bindM_ok hlist (bindM_ok hrun hdel)]
  simp

/-- delete_iam_roles_and_policies on a state holding the role, both
attachments and both policies: detaches the s3 then the foundation-model
policy, deletes the role, then deletes the two policies, in that order. -/
theorem delete_iam_ok (account suffix : String) (s : CloudState)
    (hrole : kbExecutionRoleName suffix ∈ s.roles)
    (hafm : (kbExecutionRoleName suffix,
      policyArnOf account (fmPolicyName suffix)) ∈ s.attachments)
    (has3 : (kbExecutionRoleName suffix,
      policyArnOf account (s3PolicyName suffix)) ∈ s.attachments)
    (hpfm : policyArnOf account (fmPolicyName suffix) ∈ s.policies)
    (hps3 : policyArnOf account (s3PolicyName suffix) ∈ s.policies) :
    delete_iam_roles_and_policies account suffix s =
      (.ok 0,
       { s with
          attachments := (s.attachments.filter
              (fun p => !(p.1 == kbExecutionRoleName suffix &&
                p.2 == policyArnOf account (s3PolicyName suffix)))).filter
            (fun p => !(p.1 == kbExecutionRoleName suffix &&
              p.2 == policyArnOf account (fmPolicyName suffix))),
          roles := s.roles.filter
            (fun n => !(n == kbExecutionRoleName suffix)),
          policies := (s.policies.filter
              (fun p => !(p == policyArnOf account (s3PolicyName suffix)))).filter
            (fun p => !(p == policyArnOf account (fmPolicyName suffix))) },
        [Action.detachRolePolicy (kbExecutionRoleName suffix)
           (policyArnOf account (s3PolicyName suffix)),
         Action.detachRolePolicy (kbExecutionRoleName suffix)
           (policyArnOf account (fmPolicyName suffix)),
         Action.deleteRole (kbExecutionRoleName suffix),
         Action.deletePolicy (policyArnOf account (s3PolicyName suffix)),
         Action.deletePolicy (policyArnOf account (fmPolicyName suffix))]) := by
  have hne := fm_s3_policy_arn_ne account suffix
  unfold delete_iam_roles_and_policies bindM detachRolePolicyCall
    deleteRoleCall deletePolicyCall pureM
  simp [List.mem_filter, hrole, hafm, has3, hpfm, hps3, hne]

/- ------------------------------------------------------------------ -/
/- Claim theorems                                                      -/
/- ------------------------------------------------------------------ -/

set_option maxHeartbeats 3200000 in
/-- C1: running the full provisioning sequence a second time with
identical inputs against the state left by a completed first run does NOT
succeed: the first construction completes, but the second raises
ConflictException, because inside create_knowledge_base the textually
earlier except-Exception clause catches the conflict and re-raises it (the
ConflictException adoption clause is unreachable), and the retry decorator
exhausts its seven attempts on the same conflict. -/
theorem C1_second_run_raises_conflict :
    isOkE (bedrockKnowledgeBaseInit "pets-kb" (some "Pets Knowledge Base")
      none "amazon.titan-embed-text-v2:0" "123456789012" "us-east-1"
      emptyState).1 = true ∧
    (bedrockKnowledgeBaseInit "pets-kb" (some "Pets Knowledge Base") none
      "amazon.titan-embed-text-v2:0" "123456789012" "us-east-1"
      (bedrockKnowledgeBaseInit "pets-kb" (some "Pets Knowledge Base") none
        "amazon.titan-embed-text-v2:0" "123456789012" "us-east-1"
        emptyState).2.1).1 = .error .conflictException := by
  constructor
  · rfl
  · rfl

/-- C2: the batch loop of ingest_knowledge_base_documents is fail-fast:
when the calls for the first k files (0-indexed positions below k) succeed
and the call at position k fails, it returns success_count = k,
fail_count = 1 and has submitted exactly the first k+1 files; when every
call succeeds it returns (N, 0) with all N files submitted. -/
theorem C2_batch_failfast (knowledge_base_id data_source_id s3_bucket :
    String) (env : Nat → IngestEnv) (listing files : List String)
    (hfiles : files = listing.filter (fun f => endswith f ".pdf")) :
    (∀ k, k < files.length →
      (∀ j f, j < k → files.get? j = some f →
        ingest_single_document knowledge_base_id data_source_id
          ("s3://" ++ s3_bucket ++ "/" ++ f) (docIdOf f) (lookupMeta f)
          (env j) = .ok true) →
      (∀ f, files.get? k = some f →
        ingest_single_document knowledge_base_id data_source_id
          ("s3://" ++ s3_bucket ++ "/" ++ f) (docIdOf f) (lookupMeta f)
          (env k) = .ok false) →
      ingest_knowledge_base_documents knowledge_base_id data_source_id
        s3_bucket env listing = .ok (k, 1, files.take (k + 1))) ∧
    ((∀ j f, files.get? j = some f →
        ingest_single_document knowledge_base_id data_source_id
          ("s3://" ++ s3_bucket ++ "/" ++ f) (docIdOf f) (lookupMeta f)
          (env j) = .ok true) →
      ingest_knowledge_base_documents knowledge_base_id data_source_id
        s3_bucket env listing = .ok (files.length, 0, files)) := by
  constructor
  · intro k hk h1 h2
    unfold ingest_knowledge_base_documents
    rw [← hfiles]
    apply ingestBatchAux_failfast
    · exact hk
    · intro j f hj hget
      rw [Nat.zero_add]
      exact h1 j f hj hget
    · intro f hget
      rw [Nat.zero_add]
      exact h2 f hget
  · intro h1
    unfold ingest_knowledge_base_documents
    rw [← hfiles]
    apply ingestBatchAux_all_ok
    intro j f hget
    rw [Nat.zero_add]
    exact h1 j f hget

/-- C2 witness: a two-file batch whose first document ends INDEXED and
whose second ends FAILED yields one success, one failure, with both files
(and no further file) submitted. -/
theorem C2_batch_failfast_witness :
    ingest_knowledge_base_documents "KBID-pets-kb" "DSID-pets-kb" "bucket"
      (fun i => if i = 0 then
        { submit := fun _ => .ok ["STARTING"],
          poll := fun _ => .gotStatus "INDEXED" }
      else
        { submit := fun _ => .ok ["STARTING"],
          poll := fun _ => .gotStatus "FAILED" })
      ["cat-food-wikipedia.pdf", "dog-food-wikipedia.pdf"] =
      .ok (1, 1, ["cat-food-wikipedia.pdf", "dog-food-wikipedia.pdf"]) := by
  have hfilter : (["cat-food-wikipedia.pdf", "dog-food-wikipedia.pdf"].filter
      (fun f => endswith f ".pdf")) =
      ["cat-food-wikipedia.pdf", "dog-food-wikipedia.pdf"] := by decide
  exact (C2_batch_failfast "KBID-pets-kb" "DSID-pets-kb" "bucket"
      (fun i => if i = 0 then
        { submit := fun _ => .ok ["STARTING"],
          poll := fun _ => .gotStatus "INDEXED" }
      else
        { submit := fun _ => .ok ["STARTING"],
          poll := fun _ => .gotStatus "FAILED" })
      ["cat-food-wikipedia.pdf", "dog-food-wikipedia.pdf"] _ rfl).1 1
    (by rw [hfilter]; decide)
    (by
      intro j f hj hget
      have hj0 : j = 0 := by omega
      subst hj0
      rw [hfilter] at hget
      simp only [List.get?] at hget
      have hf : f = "cat-food-wikipedia.pdf" := by
        injection hget with h
        exact h.symm
      subst hf
      simp [ingest_single_document, ingestSingleBody, tryCatchE, docPollLoop])
    (by
      intro f hget
      rw [hfilter] at hget
      simp only [List.get?] at hget
      have hf : f = "dog-food-wikipedia.pdf" := by
        injection hget with h
        exact h.symm
      subst hf
      simp [ingest_single_document, ingestSingleBody, tryCatchE, docPollLoop])

/-- C3 (amended): ingest_single_document never raises; it returns the
spec-side verdict: failure on a submission exception or an empty
documentDetails response, otherwise success exactly when the first
terminal status observed by the polls inside the 60-time-unit window (one
poll each 5 time-units) is INDEXED, failure when it is FAILED or when the
window elapses with no terminal status.  An exception during an individual
poll is caught and polling continues, so it produces failure only through
the timeout. -/
theorem C3_never_raises_and_verdict (knowledge_base_id data_source_id
    s3_uri doc_id : String) (metadata : Metadata) (env : IngestEnv) :
    ingest_single_document knowledge_base_id data_source_id s3_uri doc_id
      metadata env = .ok (ingestResultSpec s3_uri doc_id env) := by
  unfold ingest_single_document ingestResultSpec ingestSingleBody
  cases hs : env.submit (buildDoc doc_id s3_uri) with
  | error e => rfl
  | ok details =>
    cases details with
    | nil => rfl
    | cons d rest =>
      rw [docPollLoop_eq_pollVerdict env.poll 60 0 (by omega)]
      rfl

/-- C3 counterexample: submission succeeds, the poll at time 5 raises an
exception, the poll at time 10 reports INDEXED; ingest_single_document
returns success, refuting the claim that it returns failure whenever an
exception occurs during polling. -/
theorem C3_counterexample_poll_exception_then_success :
    ingest_single_document "KBID-pets-kb" "DSID-pets-kb"
      "s3://bucket/cat-food-wikipedia.pdf" "cat-food-wikipedia" []
      { submit := fun _ => .ok ["STARTING"],
        poll := fun w => if w = 5 then .pollError
          else .gotStatus "INDEXED" } = .ok true ∧
    ({ submit := fun _ => .ok ["STARTING"],
       poll := fun w => if w = 5 then .pollError
         else .gotStatus "INDEXED" } : IngestEnv).poll 5 =
      PollResult.pollError := by
  constructor
  · simp [ingest_single_document, ingestSingleBody, tryCatchE, docPollLoop]
  · rfl

/-- C4: when create_knowledge_base hits a ConflictException (the knowledge
base name already exists) the conflict IS surfaced to the caller after the
retries, and the recovery path (list knowledge bases, match by name, get by
id) never executes: the except-Exception diagnostic clause precedes the
except-ConflictException clause and shadows it. -/
theorem C4_conflict_surfaced_not_adopted :
    (create_knowledge_base "pets-kb" "123456789012"
      (kbExecutionRoleName "1234")
      { emptyState with
        knowledgeBases := ["pets-kb"]
        roles := [kbExecutionRoleName "1234"] }).1 =
      .error .conflictException ∧
    Action.listKnowledgeBases ∉
      (create_knowledge_base "pets-kb" "123456789012"
        (kbExecutionRoleName "1234")
        { emptyState with
          knowledgeBases := ["pets-kb"]
          roles := [kbExecutionRoleName "1234"] }).2.2 := by
  constructor
  · rfl
  · decide

/-- C6 (amended): constructing with an embedding model outside the
allow-list raises ValueError before any provisioning call and leaves the
cloud state unchanged; the only cloud call already made at that point is
the STS get_caller_identity lookup performed during client setup. -/
theorem C6_reject_before_provisioning (kb_name : String)
    (kb_description data_bucket_name : Option String)
    (embedding_model account region_name : String) (s : CloudState)
    (h : embedding_model ∉ valid_embedding_models) :
    bedrockKnowledgeBaseInit kb_name kb_description data_bucket_name
      embedding_model account region_name s =
      (.error (.valueError
        ("Invalid embedding model. Your embedding model should be one of "
          ++ validEmbeddingModelsStr)), s, [Action.stsGetCallerIdentity]) := by
  unfold bedrockKnowledgeBaseInit bindM stsGetCallerIdentityCall throwM
  simp [h]

/-- C6 witness: the unknown model text-embedding-3-large is rejected with
ValueError after exactly the STS call, from the empty state. -/
theorem C6_reject_witness :
    bedrockKnowledgeBaseInit "pets-kb" none none "text-embedding-3-large"
      "123456789012" "us-east-1" emptyState =
      (.error (.valueError
        ("Invalid embedding model. Your embedding model should be one of "
          ++ validEmbeddingModelsStr)), emptyState,
        [Action.stsGetCallerIdentity]) :=
  C6_reject_before_provisioning "pets-kb" none none
    "text-embedding-3-large" "123456789012" "us-east-1" emptyState
    (by decide)

/-- C6 counterexample: with the unknown model text-embedding-3-large the
constructor does raise ValueError, but its call trace is not empty — the
STS get_caller_identity cloud call has already been made — refuting the
claim that the rejection happens without making any cloud call. -/
theorem C6_counterexample_cloud_call_before_reject :
    (bedrockKnowledgeBaseInit "pets-kb" none none "text-embedding-3-large"
      "123456789012" "us-east-1" emptyState).2.2 =
      [Action.stsGetCallerIdentity] ∧
    (bedrockKnowledgeBaseInit "pets-kb" none none "text-embedding-3-large"
      "123456789012" "us-east-1" emptyState).2.2 ≠ [] ∧
    isOkE (bedrockKnowledgeBaseInit "pets-kb" none none
      "text-embedding-3-large" "123456789012" "us-east-1" emptyState).1 =
      false := by
  refine ⟨rfl, ?_, rfl⟩
  decide

/-- C9: if the status stream of the bulk ingestion job never reaches
COMPLETE (for example because the job is FAILED forever), the polling loop
of start_ingestion_job never terminates, for any amount of fuel; the loop
exits only with status COMPLETE; and every action it issues between polls
is a get_ingestion_job call — there is no sleep between successive
polls. -/
theorem C9_busy_poll_nontermination (statusOf : Nat → String)
    (initial_status : String) (hs : ∀ n, statusOf n ≠ "COMPLETE")
    (hi : initial_status ≠ "COMPLETE") :
    (∀ fuel n0,
      (ingestionPollLoop statusOf fuel n0 initial_status).1 = none) ∧
    (∀ fuel, (start_ingestion_job statusOf initial_status fuel).1 = none) ∧
    (∀ fuel n0 cur st,
      (ingestionPollLoop statusOf fuel n0 cur).1 = some st →
        st = "COMPLETE") ∧
    (∀ fuel n0 cur a, a ∈ (ingestionPollLoop statusOf fuel n0 cur).2 →
      a = Action.getIngestionJob ∧ a ≠ Action.sleep 1) := by
  refine ⟨?_, ?_, ?_, ?_⟩
  · intro fuel n0
    exact ingestionPollLoop_never_exits statusOf hs fuel n0 initial_status hi
  · intro fuel
    have h := ingestionPollLoop_never_exits statusOf hs fuel 0
      initial_status hi
    unfold start_ingestion_job
    rcases hp : ingestionPollLoop statusOf fuel 0 initial_status with ⟨r, t⟩
    rw [hp] at h
    simp at h
    subst h
    simp
  · intro fuel n0 cur st
    exact ingestionPollLoop_exit_status statusOf fuel n0 cur st
  · intro fuel n0 cur a ha
    have h := ingestionPollLoop_no_sleep statusOf fuel n0 cur a ha
    subst h
    exact ⟨rfl, by decide⟩

/-- C9 witness: with every poll answering FAILED and initial status
STARTING, the loop has produced no result after 500 iterations, at the
loop level and through start_ingestion_job. -/
theorem C9_busy_poll_witness :
    (ingestionPollLoop (fun _ => "FAILED") 500 0 "STARTING").1 = none ∧
    (start_ingestion_job (fun _ => "FAILED") "STARTING" 500).1 = none :=
  ⟨(C9_busy_poll_nontermination (fun _ => "FAILED") "STARTING"
      (by intro n; show ("FAILED" : String) ≠ "COMPLETE"; decide) (by decide)).1 500 0,
   (C9_busy_poll_nontermination (fun _ => "FAILED") "STARTING"
      (by intro n; show ("FAILED" : String) ≠ "COMPLETE"; decide) (by decide)).2.1 500⟩

/-- Sequencing a successful computation with a trailing pure unit. -/
theorem bindM_ok_pure {α : Type} {x : M α} {s s1 : CloudState} {a : α}
    {t1 : List Action} (hx : x s = (.ok a, s1, t1)) :
    bindM x (fun _ => pureM ()) s = (.ok (), s1, t1) := by
  unfold bindM pureM
  rw [hx]
  simp

/-- C7 (amended): a teardown with both optional flags set issues its
deletions in the order: data source, knowledge base, object listing, one
delete per listed object, bucket, detach s3 policy, detach
foundation-model policy, delete role, delete s3 policy, delete
foundation-model policy — dependency order except that the role is deleted
BEFORE the two policies are deleted (their detachment does precede the
role deletion); the whole teardown succeeds. -/
theorem C7_teardown_order (data_source_id kbId bucket account suffix :
    String) (s : CloudState)
    (hds : (kbId, data_source_id) ∈ s.dataSources)
    (hkb : s.knowledgeBases.any (fun n => kbIdOf n == kbId) = true)
    (hb : bucket ∈ s.dataBuckets)
    (hrole : kbExecutionRoleName suffix ∈ s.roles)
    (hafm : (kbExecutionRoleName suffix,
      policyArnOf account (fmPolicyName suffix)) ∈ s.attachments)
    (has3 : (kbExecutionRoleName suffix,
      policyArnOf account (s3PolicyName suffix)) ∈ s.attachments)
    (hpfm : policyArnOf account (fmPolicyName suffix) ∈ s.policies)
    (hps3 : policyArnOf account (s3PolicyName suffix) ∈ s.policies) :
    (delete_kb data_source_id kbId bucket account suffix true true s).1 =
      .ok () ∧
    (delete_kb data_source_id kbId bucket account suffix true true s).2.2 =
      Action.deleteDataSource data_source_id kbId ::
      Action.deleteKnowledgeBase kbId ::
      Action.listObjects bucket ::
      (((s.objects.filter (fun p => p.1 == bucket)).map (fun p => p.2)).map
          (Action.deleteObject bucket) ++
        [Action.deleteBucket bucket,
         Action.detachRolePolicy (kbExecutionRoleName suffix)
           (policyArnOf account (s3PolicyName suffix)),
         Action.detachRolePolicy (kbExecutionRoleName suffix)
           (policyArnOf account (fmPolicyName suffix)),
         Action.deleteRole (kbExecutionRoleName suffix),
         Action.deletePolicy (policyArnOf account (s3PolicyName suffix)),
         Action.deletePolicy (policyArnOf account (fmPolicyName suffix))]) := by
  have hd1 : deleteDataSourceCall data_source_id kbId s =
      (.ok (),
        { s with
            dataSources := s.dataSources.filter
              (fun p => !(p.1 == kbId && p.2 == data_source_id)) },
        [Action.deleteDataSource data_source_id kbId]) := by
    unfold deleteDataSourceCall
    rw [if_pos hds]
  have hd2 : deleteKnowledgeBaseCall kbId
      { s with
          dataSources := s.dataSources.filter
            (fun p => !(p.1 == kbId && p.2 == data_source_id)) } =
      (.ok (),
        { s with
            dataSources := s.dataSources.filter
              (fun p => !(p.1 == kbId && p.2 == data_source_id))
            knowledgeBases := s.knowledgeBases.filter
              (fun n => !(kbIdOf n == kbId)) },
        [Action.deleteKnowledgeBase kbId]) := by
    unfold deleteKnowledgeBaseCall
    rw [if_pos hkb]
  obtain ⟨sS, hS, hatS, hroS, hpoS⟩ := delete_s3_ok bucket
    { s with
        dataSources := s.dataSources.filter
          (fun p => !(p.1 == kbId && p.2 == data_source_id))
        knowledgeBases := s.knowledgeBases.filter
          (fun n => !(kbIdOf n == kbId)) } hb
  have hIAM := delete_iam_ok account suffix sS
    (by rw [hroS]; exact hrole)
    (by rw [hatS]; exact hafm)
    (by rw [hatS]; exact has3)
    (by rw [hpoS]; exact hpfm)
    (by rw [hpoS]; exact hps3)
  constructor
  · show (bindM (deleteDataSourceCall data_source_id kbId)
      (fun _ => bindM (deleteKnowledgeBaseCall kbId)
        (fun _ => bindM (delete_s3 bucket)
          (fun _ => bindM (delete_iam_roles_and_policies account suffix)
            (fun _ => pureM ())))) s).1 = .ok ()
    rw [bindM_ok hd1 (bindM_ok hd2 (bindM_ok hS (bindM_ok_pure hIAM)))]
  · show (bindM (deleteDataSourceCall data_source_id kbId)
      (fun _ => bindM (deleteKnowledgeBaseCall kbId)
        (fun _ => bindM (delete_s3 bucket)
          (fun _ => bindM (delete_iam_roles_and_policies account suffix)
            (fun _ => pureM ())))) s).2.2 = _
    rw [bindM_ok hd1 (bindM_ok hd2 (bindM_ok hS (bindM_ok_pure hIAM)))]
    simp

/-- C7 witness: the teardown of the pets-kb provisioning state issues
exactly the ten calls in the order proved above. -/
theorem C7_teardown_order_witness :
    (delete_kb (dsIdOf "pets-kb") (kbIdOf "pets-kb") "pets-kb-1234"
      "123456789012" "1234" true true teardownReadyState).1 = .ok () ∧
    (delete_kb (dsIdOf "pets-kb") (kbIdOf "pets-kb") "pets-kb-1234"
      "123456789012" "1234" true true teardownReadyState).2.2 =
      [Action.deleteDataSource (dsIdOf "pets-kb") (kbIdOf "pets-kb"),
       Action.deleteKnowledgeBase (kbIdOf "pets-kb"),
       Action.listObjects "pets-kb-1234",
       Action.deleteObject "pets-kb-1234" "cat-food-wikipedia.pdf",
       Action.deleteBucket "pets-kb-1234",
       Action.detachRolePolicy (kbExecutionRoleName "1234")
         (policyArnOf "123456789012" (s3PolicyName "1234")),
       Action.detachRolePolicy (kbExecutionRoleName "1234")
         (policyArnOf "123456789012" (fmPolicyName "1234")),
       Action.deleteRole (kbExecutionRoleName "1234"),
       Action.deletePolicy (policyArnOf "123456789012" (s3PolicyName "1234")),
       Action.deletePolicy (policyArnOf "123456789012"
         (fmPolicyName "1234"))] :=
  C7_teardown_order (dsIdOf "pets-kb") (kbIdOf "pets-kb") "pets-kb-1234"
    "123456789012" "1234" teardownReadyState (by decide) (by decide)
    (by decide) (by decide) (by decide) (by decide) (by decide) (by decide)

/-- C7 counterexample: in that same full teardown the role deletion comes
strictly before both policy deletions in the issued-call order, refuting
the claimed order in which both policies are deleted before the role. -/
theorem C7_counterexample_role_deleted_before_policies :
    precedesIn (delete_kb (dsIdOf "pets-kb") (kbIdOf "pets-kb")
        "pets-kb-1234" "123456789012" "1234" true true
        teardownReadyState).2.2
      (Action.deleteRole (kbExecutionRoleName "1234"))
      (Action.deletePolicy (policyArnOf "123456789012"
        (s3PolicyName "1234"))) = true ∧
    precedesIn (delete_kb (dsIdOf "pets-kb") (kbIdOf "pets-kb")
        "pets-kb-1234" "123456789012" "1234" true true
        teardownReadyState).2.2
      (Action.deletePolicy (policyArnOf "123456789012"
        (s3PolicyName "1234")))
      (Action.deleteRole (kbExecutionRoleName "1234")) = false ∧
    precedesIn (delete_kb (dsIdOf "pets-kb") (kbIdOf "pets-kb")
        "pets-kb-1234" "123456789012" "1234" true true
        teardownReadyState).2.2
      (Action.deletePolicy (policyArnOf "123456789012"
        (fmPolicyName "1234")))
      (Action.deleteRole (kbExecutionRoleName "1234")) = false := by
  refine ⟨?_, ?_, ?_⟩ <;> decide

/-- C8 (amended): the optional teardown steps are not error-isolated: when
the storage step fails (here because the data bucket does not exist, so
list_objects raises), delete_kb propagates the exception, stops after the
object listing, and the IAM step never runs even though its flag is
set. -/
theorem C8_storage_failure_blocks_iam (data_source_id kbId bucket account
    suffix : String) (s : CloudState)
    (hds : (kbId, data_source_id) ∈ s.dataSources)
    (hkb : s.knowledgeBases.any (fun n => kbIdOf n == kbId) = true)
    (hb : bucket ∉ s.dataBuckets) :
    (delete_kb data_source_id kbId bucket account suffix true true s).1 =
      .error .clientError ∧
    (delete_kb data_source_id kbId bucket account suffix true true s).2.2 =
      [Action.deleteDataSource data_source_id kbId,
       Action.deleteKnowledgeBase kbId, Action.listObjects bucket] ∧
    ∀ a ∈ (delete_kb data_source_id kbId bucket account suffix true true
      s).2.2, isIamTeardownAction a = false := by
  have hd1 : deleteDataSourceCall data_source_id kbId s =
      (.ok (),
        { s with
            dataSources := s.dataSources.filter
              (fun p => !(p.1 == kbId && p.2 == data_source_id)) },
        [Action.deleteDataSource data_source_id kbId]) := by
    unfold deleteDataSourceCall
    rw [if_pos hds]
  have hd2 : deleteKnowledgeBaseCall kbId
      { s with
          dataSources := s.dataSources.filter
            (fun p => !(p.1 == kbId && p.2 == data_source_id)) } =
      (.ok (),
        { s with
            dataSources := s.dataSources.filter
              (fun p => !(p.1 == kbId && p.2 == data_source_id))
            knowledgeBases := s.knowledgeBases.filter
              (fun n => !(kbIdOf n == kbId)) },
        [Action.deleteKnowledgeBase kbId]) := by
    unfold deleteKnowledgeBaseCall
    rw [if_pos hkb]
  have hlist : listObjectsCall bucket
      { s with
          dataSources := s.dataSources.filter
            (fun p => !(p.1 == kbId && p.2 == data_source_id))
          knowledgeBases := s.knowledgeBases.filter
            (fun n => !(kbIdOf n == kbId)) } =
      (.error .clientError,
        { s with
            dataSources := s.dataSources.filter
              (fun p => !(p.1 == kbId && p.2 == data_source_id))
            knowledgeBases := s.knowledgeBases.filter
              (fun n => !(kbIdOf n == kbId)) },
        [Action.listObjects bucket]) := by
    unfold listObjectsCall
    rw [if_neg hb]
  have hs3 : delete_s3 bucket
      { s with
          dataSources := s.dataSources.filter
            (fun p => !(p.1 == kbId && p.2 == data_source_id))
          knowledgeBases := s.knowledgeBases.filter
            (fun n => !(kbIdOf n == kbId)) } =
      (.error .clientError,
        { s with
            dataSources := s.dataSources.filter
              (fun p => !(p.1 == kbId && p.2 == data_source_id))
            knowledgeBases := s.knowledgeBases.filter
              (fun n => !(kbIdOf n == kbId)) },
        [Action.listObjects bucket]) := by
    show bindM (listObjectsCall bucket) _ _ = _
    exact bindM_err hlist
  refine ⟨?_, ?_, ?_⟩
  · show (bindM (deleteDataSourceCall data_source_id kbId)
      (fun _ => bindM (deleteKnowledgeBaseCall kbId)
        (fun _ => bindM (delete_s3 bucket)
          (fun _ => bindM (delete_iam_roles_and_policies account suffix)
            (fun _ => pureM ())))) s).1 = .error .clientError
    rw [bindM_ok hd1 (bindM_ok hd2 (bindM_err hs3))]
  · show (bindM (deleteDataSourceCall data_source_id kbId)
      (fun _ => bindM (deleteKnowledgeBaseCall kbId)
        (fun _ => bindM (delete_s3 bucket)
          (fun _ => bindM (delete_iam_roles_and_policies account suffix)
            (fun _ => pureM ())))) s).2.2 = _
    rw [bindM_ok hd1 (bindM_ok hd2 (bindM_err hs3))]
    simp
  · show ∀ a ∈ (bindM (deleteDataSourceCall data_source_id kbId)
      (fun _ => bindM (deleteKnowledgeBaseCall kbId)
        (fun _ => bindM (delete_s3 bucket)
          (fun _ => bindM (delete_iam_roles_and_policies account suffix)
            (fun _ => pureM ())))) s).2.2, isIamTeardownAction a = false
    rw [bindM_ok hd1 (bindM_ok hd2 (bindM_err hs3))]
    intro a ha
    simp at ha
    rcases ha with rfl | rfl | rfl <;> rfl

/-- C8 witness: the teardown of the pets-kb state whose data bucket has
disappeared stops with ClientError right after the object listing, with no
IAM call issued. -/
theorem C8_storage_failure_witness :
    (delete_kb (dsIdOf "pets-kb") (kbIdOf "pets-kb") "pets-kb-1234"
      "123456789012" "1234" true true
      { teardownReadyState with dataBuckets := [] }).1 =
      .error .clientError ∧
    (delete_kb (dsIdOf "pets-kb") (kbIdOf "pets-kb") "pets-kb-1234"
      "123456789012" "1234" true true
      { teardownReadyState with dataBuckets := [] }).2.2 =
      [Action.deleteDataSource (dsIdOf "pets-kb") (kbIdOf "pets-kb"),
       Action.deleteKnowledgeBase (kbIdOf "pets-kb"),
       Action.listObjects "pets-kb-1234"] ∧
    ∀ a ∈ (delete_kb (dsIdOf "pets-kb") (kbIdOf "pets-kb") "pets-kb-1234"
      "123456789012" "1234" true true
      { teardownReadyState with dataBuckets := [] }).2.2,
      isIamTeardownAction a = false :=
  C8_storage_failure_blocks_iam (dsIdOf "pets-kb") (kbIdOf "pets-kb")
    "pets-kb-1234" "123456789012" "1234"
    { teardownReadyState with dataBuckets := [] } (by decide) (by decide)
    (by decide)

/-- C8 counterexample: with the storage step failing (bucket missing), the
requested IAM step never runs and the teardown aborts with the error —
refuting the claim that a storage-step failure does not prevent the IAM
step from running. -/
theorem C8_counterexample_iam_step_never_runs :
    isOkE (delete_kb (dsIdOf "pets-kb") (kbIdOf "pets-kb") "pets-kb-1234"
      "123456789012" "1234" true true
      { teardownReadyState with dataBuckets := [] }).1 = false ∧
    ((delete_kb (dsIdOf "pets-kb") (kbIdOf "pets-kb") "pets-kb-1234"
      "123456789012" "1234" true true
      { teardownReadyState with dataBuckets := [] }).2.2).any
      isIamTeardownAction = false := by
  refine ⟨?_, ?_⟩ <;> decide

/-- C10: two ingest_single_document calls whose arguments differ only in
the metadata parameter submit the same document descriptor and return the
same result, for every cloud behaviour: the metadata (including the
classification maps looked up in ingest_knowledge_base_documents) never
enters the ingest request. -/
theorem C10_metadata_never_submitted (knowledge_base_id data_source_id
    s3_uri doc_id : String) (metadata1 metadata2 : Metadata)
    (env : IngestEnv) :
    submittedDescriptor s3_uri doc_id metadata1 =
      submittedDescriptor s3_uri doc_id metadata2 ∧
    ingest_single_document knowledge_base_id data_source_id s3_uri doc_id
      metadata1 env =
      ingest_single_document knowledge_base_id data_source_id s3_uri doc_id
        metadata2 env :=
  ⟨rfl, rfl⟩

end KBS3
